import Mathlib

/-!
Verification of the SYNAPSE 2.0 compression-molding simulation engine.

This file gives a shallow embedding of the simulation-and-monitoring engine
found in the repository (the complete variant of the engine, the one with the
clamped process model, the `CircularBuffer`, the `PriorityQueue`-backed alert
list, the weighted health index and the clamped OEE).  JavaScript numbers are
modelled as exact rationals, `Math.random()` draws are explicit parameters
(one field of `Noise` per draw of the tick callback), wall-clock timestamps
are integers, and React state updated by the tick callback is carried in an
explicit `EngineState` record.  The definitions follow the source; theorems
about them settle the frozen specification claims.
-/

namespace Synapse

/-! ### Phases and the cycle state machine -/

/-- The six machine phases of `CYCLE_PHASES`. -/
inductive Phase where
  | IDLE
  | CLOSING
  | HEATING
  | PRESSING
  | COOLING
  | OPENING
  deriving DecidableEq, Repr

/-- The `duration` field of each `CYCLE_PHASES` entry (in ticks). -/
def Phase.duration : Phase → Nat
  | .IDLE => 5
  | .CLOSING => 3
  | .HEATING => 15
  | .PRESSING => 10
  | .COOLING => 8
  | .OPENING => 4

/-- Successor of each phase in the `switch` of the simulation loop. -/
def Phase.next : Phase → Phase
  | .IDLE => .CLOSING
  | .CLOSING => .HEATING
  | .HEATING => .PRESSING
  | .PRESSING => .COOLING
  | .COOLING => .OPENING
  | .OPENING => .IDLE

/-- The phase-machine part of the per-tick state: `machineStateRef` and
`phaseTimeRef`. -/
structure FsmState where
  phase : Phase
  phaseTime : Nat
  deriving DecidableEq, Repr

/-- One tick of the phase machine: `phaseTimeRef.current += 1`, then the
duration check and the `switch` on the current state.  The boolean is true
exactly when the `OPENING` case runs, i.e. when a cycle completes (this is
the case in which the source increments `totalCycles`). -/
def fsmTick (s : FsmState) : FsmState × Bool :=
  let t := s.phaseTime + 1
  if t ≥ s.phase.duration then
    match s.phase with
    | .IDLE => ({ phase := .CLOSING, phaseTime := 0 }, false)
    | .CLOSING => ({ phase := .HEATING, phaseTime := 0 }, false)
    | .HEATING => ({ phase := .PRESSING, phaseTime := 0 }, false)
    | .PRESSING => ({ phase := .COOLING, phaseTime := 0 }, false)
    | .COOLING => ({ phase := .OPENING, phaseTime := 0 }, false)
    | .OPENING => ({ phase := .IDLE, phaseTime := 0 }, true)
  else ({ phase := s.phase, phaseTime := t }, false)

/-- Iterate the phase machine `n` ticks, counting completed cycles. -/
def fsmIter : Nat → FsmState → FsmState × Nat
  | 0, s => (s, 0)
  | n + 1, s =>
    let r := fsmTick s
    let rest := fsmIter n r.1
    (rest.1, (if r.2 then 1 else 0) + rest.2)

/-! ### Thresholds and setpoint constants -/

def TARGET_TEMP : ℚ := 165
def TARGET_PRESSURE : ℚ := 180
def TEMP_TOLERANCE : ℚ := 10
def PRESSURE_TOLERANCE : ℚ := 10
def TEMP_WARNING_THRESHOLD : ℚ := TARGET_TEMP * 0.85
def VIBRATION_SAFE : ℚ := 4
def VIBRATION_WARNING : ℚ := 5
def VIBRATION_CRITICAL : ℚ := 8
def BRAKE_PAD_TEMP_MIN : ℚ := 25
def BRAKE_PAD_TEMP_MAX : ℚ := 220
def BRAKE_PAD_PRESSURE_MIN : ℚ := 0
def BRAKE_PAD_PRESSURE_MAX : ℚ := 260

/-- `const clamp = (value, min, max) => Math.min(max, Math.max(min, value))`. -/
def clamp (value lo hi : ℚ) : ℚ := min hi (max lo value)

/-- `parseFloat(x.toFixed(1))`: round to one decimal place.  `toFixed` picks
the nearest multiple of `1/10`, ties toward the larger value, which is
exactly `fun x => floor (x * 10 + 1/2) / 10`. -/
def round1 (x : ℚ) : ℚ := (⌊x * 10 + 1 / 2⌋ : ℚ) / 10

/-! ### The circular telemetry buffer -/

/-- The `CircularBuffer` class.  The backing JavaScript array of fixed size
is modelled as a map from slot indices to optional values (`none` standing
for a slot still holding `undefined`). -/
structure CircularBuffer (α : Type) where
  size : Nat
  buffer : Nat → Option α
  length : Nat
  index : Nat

/-- `new CircularBuffer(size)`. -/
def CircularBuffer.mkEmpty (α : Type) (size : Nat) : CircularBuffer α :=
  { size := size, buffer := fun _ => none, length := 0, index := 0 }

/-- `push(value)`: write at `index`, advance `index` modulo `size`, saturate
`length` at `size`. -/
def CircularBuffer.push {α : Type} (cb : CircularBuffer α) (value : α) : CircularBuffer α :=
  { cb with
    buffer := fun j => if j = cb.index then some value else cb.buffer j
    index := (cb.index + 1) % cb.size
    length := min (cb.length + 1) cb.size }

/-- `toArray()`: read `length` slots starting at the oldest one.  The source
computes `(this.index - this.length + i + this.size) % this.size`; for every
state the class can reach (`length ≤ size`, `index < size`) that quantity is
non-negative and equals the natural-number expression used here. -/
def CircularBuffer.toArray {α : Type} (cb : CircularBuffer α) : List (Option α) :=
  (List.range cb.length).map fun i => cb.buffer ((cb.index + cb.size + i - cb.length) % cb.size)

/-- `dataBufferRef.current = new CircularBuffer(60)` after pushing the
elements of `xs` in order. -/
def dataBuffer {α : Type} (xs : List α) : CircularBuffer α :=
  xs.foldl CircularBuffer.push (CircularBuffer.mkEmpty α 60)

/-- Coupling invariant between the list of all pushed values and the
concrete buffer state: sizes and counters agree, and slot `p % 60` holds the
`p`-th pushed value for each of the (at most 60) retained positions `p`. -/
def CBInv {α : Type} (xs : List α) (cb : CircularBuffer α) : Prop :=
  cb.size = 60 ∧ cb.length = min xs.length 60 ∧ cb.index = xs.length % 60 ∧
    ∀ p : Nat, p < xs.length → xs.length ≤ p + 60 → cb.buffer (p % 60) = xs[p]?

/-! ### Alerts and the priority queue -/

/-- Alert severities used as the `type` field of alert records. -/
inductive Severity where
  | critical
  | warning
  | info
  deriving DecidableEq, Repr

/-- The `ALERT_PRIORITY` table. -/
def ALERT_PRIORITY : Severity → ℤ
  | .critical => 3
  | .warning => 2
  | .info => 1

/-- An alert record `{ msg, type, time }` (`time` is `Date.now()`). -/
structure Alert where
  msg : String
  type : Severity
  time : ℤ
  deriving DecidableEq, Repr

/-- The comparator handed to the `PriorityQueue`: descending priority, ties
broken by descending timestamp. -/
def compareFn (a b : Alert) : ℤ :=
  let priorityDelta := ALERT_PRIORITY b.type - ALERT_PRIORITY a.type
  if priorityDelta ≠ 0 then priorityDelta else b.time - a.time

/-- `a` sorts at or before `b` under `compareFn` (comparator value `≤ 0`). -/
def alertLE (a b : Alert) : Prop := compareFn a b ≤ 0

instance : DecidableRel alertLE := fun a b => Int.decLe (compareFn a b) 0

/-- `enqueue(item)` of the `PriorityQueue`: push the item and re-sort the
whole backing array with the comparator.  `Array.prototype.sort` is a stable
sort, and `List.insertionSort` is stable, so sorting the pushed-at-the-end
list with `alertLE` reproduces it exactly. -/
def enqueue (items : List Alert) (item : Alert) : List Alert :=
  List.insertionSort alertLE (items ++ [item])

/-- The alert-manager state: the ever-growing `alertQueueRef` backing array
and the exposed `alerts` React state (`queue.toArray().slice(0, 10)`). -/
structure AlertMgr where
  items : List Alert
  alerts : List Alert
  deriving DecidableEq, Repr

/-- The accepting path of `addAlert`: enqueue the new alert and expose the
first 10 entries of the sorted queue. -/
def AlertMgr.accept (st : AlertMgr) (a : Alert) : AlertMgr :=
  let q := enqueue st.items a
  { items := q, alerts := q.take 10 }

/-- `addAlert(msg, type)`: the dedup check
`prev.length > 0 && prev[0].msg === msg && (Date.now() - prev[0].time < 5000)`
returns the state unchanged, otherwise the candidate is accepted. -/
def addAlert (msg : String) (type : Severity) (now : ℤ) (st : AlertMgr) : AlertMgr :=
  match st.alerts with
  | prev0 :: _ =>
    if prev0.msg = msg ∧ now - prev0.time < 5000 then st
    else st.accept { msg := msg, type := type, time := now }
  | [] => st.accept { msg := msg, type := type, time := now }

/-- A candidate alert offered to `addAlert`. -/
structure Offer where
  msg : String
  type : Severity
  time : ℤ
  deriving DecidableEq, Repr

/-- Run a sequence of `addAlert` calls from the initial (empty) state. -/
def runAlerts (offers : List Offer) : AlertMgr :=
  offers.foldl (fun st o => addAlert o.msg o.type o.time st) { items := [], alerts := [] }

/-- Invariant of every reachable alert-manager state: the backing array is
sorted by the comparator and the exposed list is its 10-entry prefix. -/
def MgrInv (st : AlertMgr) : Prop :=
  st.items.Sorted alertLE ∧ st.alerts = st.items.take 10

/-- The ordering the specification requires on the exposed alert list:
severity descending, ties broken by timestamp with the most recent first. -/
def severityDesc (a b : Alert) : Prop :=
  ALERT_PRIORITY b.type < ALERT_PRIORITY a.type ∨
    (ALERT_PRIORITY a.type = ALERT_PRIORITY b.type ∧ b.time ≤ a.time)

/-! ### Deviations, per-tick alert decisions, reject increments -/

/-- Temperature deviation in percent: `((current − TARGET_TEMP) / TARGET_TEMP) * 100`,
computed only while the phase is HEATING or PRESSING, the local `tempDev`
staying `0` otherwise. -/
def tempDeviationOf (p : Phase) (temp : ℚ) : ℚ :=
  if p = Phase.HEATING ∨ p = Phase.PRESSING then (temp - TARGET_TEMP) / TARGET_TEMP * 100 else 0

/-- Pressure deviation in percent, computed only while the phase is PRESSING. -/
def pressureDeviationOf (p : Phase) (pressure : ℚ) : ℚ :=
  if p = Phase.PRESSING then (pressure - TARGET_PRESSURE) / TARGET_PRESSURE * 100 else 0

/-- The temperature-alert decision of the tick: inside the
HEATING/PRESSING branch, if `|tempDev| > TEMP_TOLERANCE` then a critical
alert when the temperature is below `TEMP_WARNING_THRESHOLD`, else a
warning alert. -/
def tempAlert (p : Phase) (temp : ℚ) : Option Severity :=
  if p = Phase.HEATING ∨ p = Phase.PRESSING then
    if |tempDeviationOf p temp| > TEMP_TOLERANCE then
      if temp < TEMP_WARNING_THRESHOLD then some .critical else some .warning
    else none
  else none

/-- The pressure-alert decision of the tick: only during PRESSING, and only
when the deviation is beyond tolerance AND the pressure is below 90 percent
of the target, a critical alert. -/
def pressureAlert (p : Phase) (pressure : ℚ) : Option Severity :=
  if p = Phase.PRESSING then
    if |pressureDeviationOf p pressure| > PRESSURE_TOLERANCE ∧
        pressure < TARGET_PRESSURE * 0.9 then
      some .critical
    else none
  else none

/-- `setRejectCount(c => c + (Math.random() > 0.8 ? 1 : 0))`, executed only
inside the critical temperature-alert branch. -/
def tempRejectInc (p : Phase) (temp rnd : ℚ) : Nat :=
  if tempAlert p temp = some .critical then (if rnd > 0.8 then 1 else 0) else 0

/-- `setRejectCount(c => c + (Math.random() > 0.7 ? 1 : 0))`, executed only
inside the critical pressure-alert branch. -/
def pressureRejectInc (p : Phase) (pressure rnd : ℚ) : Nat :=
  if pressureAlert p pressure = some .critical then (if rnd > 0.7 then 1 else 0) else 0

/-! ### Health index and OEE -/

/-- The update function passed to `setHealthIndex`: weighted penalties,
small symmetric fluctuation, clamp to `[5, 100]`.  `rnd` is the
`Math.random()` draw of the fluctuation. -/
def computeHealth (tempDev pressureDev : ℚ) (rejectCount totalCycles : Nat)
    (vibration rnd : ℚ) : ℚ :=
  let tempDevPenalty := min (|tempDev| * 2) 100
  let pressureDevPenalty := min (|pressureDev| * 2) 100
  let rejectRate := if 0 < rejectCount then (rejectCount : ℚ) / max 1 (totalCycles : ℚ) else 0
  let rejectPenalty := min (rejectRate * 150) 100
  let vibrationPenalty : ℚ :=
    if vibration > VIBRATION_CRITICAL then 80
    else if vibration > VIBRATION_WARNING then 40
    else if vibration > VIBRATION_SAFE then 20
    else 5
  let health := 100 -
    (0.4 * tempDevPenalty + 0.3 * pressureDevPenalty + 0.2 * rejectPenalty +
      0.1 * vibrationPenalty)
  let fluctuation := (rnd - 0.5) * 1
  let finalHealth := health + fluctuation
  max 5 (min 100 finalHealth)

/-- Modelled from the specification's words (refinement target for the
health-index claim): `100 − (0.4·tempPenalty + 0.3·pressurePenalty +
0.2·rejectPenalty + 0.1·vibrationPenalty)` with the stated penalty
definitions, plus the jitter, clamped to `[5, 100]`. -/
def healthIndexSpec (tempDev pressureDev : ℚ) (rejects totalCycles : Nat)
    (vibration jitter : ℚ) : ℚ :=
  let tempPenalty := min (|tempDev| * 2) 100
  let pressurePenalty := min (|pressureDev| * 2) 100
  let rejectPenalty := min ((rejects : ℚ) / max 1 (totalCycles : ℚ) * 150) 100
  let vibrationPenalty : ℚ :=
    if vibration ≤ VIBRATION_SAFE then 5
    else if vibration ≤ VIBRATION_WARNING then 20
    else if vibration ≤ VIBRATION_CRITICAL then 40
    else 80
  max 5 (min 100
    (100 -
        (0.4 * tempPenalty + 0.3 * pressurePenalty + 0.2 * rejectPenalty +
          0.1 * vibrationPenalty) +
      jitter))

/-- The displayed OEE value (the second inline computation of the footer
card, the one the dashboard renders): quality and performance floors, the
availability factor, and the final clamp to `[50, 100]`. -/
def oeeDisplayed (isRunning : Bool) (tempDeviation pressureDeviation : ℚ)
    (rejectCount totalCycles : Nat) : ℚ :=
  let qualityFactor := max 0.55 (1 - (rejectCount : ℚ) / max 1 (totalCycles : ℚ))
  let performanceFactor :=
    max 0.6 (0.95 - |tempDeviation| / 100 * 0.1 - |pressureDeviation| / 100 * 0.1)
  let availabilityFactor : ℚ := if isRunning then 0.98 else 0.7
  max 50 (min 100 (availabilityFactor * performanceFactor * qualityFactor * 100))

/-- Modelled from the specification's words (refinement target for the OEE
claim): `availability × performance × quality × 100` with
`performance = max(0.60, 0.95 − |tempDev|/1000 − |pressureDev|/1000)`,
clamped to `[50, 100]`. -/
def oeeSpec (running : Bool) (tempDev pressureDev : ℚ)
    (rejects totalCycles : Nat) : ℚ :=
  let availability : ℚ := if running then 0.98 else 0.7
  let performance := max 0.6 (0.95 - |tempDev| / 1000 - |pressureDev| / 1000)
  let quality := max 0.55 (1 - (rejects : ℚ) / max 1 (totalCycles : ℚ))
  max 50 (min 100 (availability * performance * quality * 100))

/-! ### The tick of the simulation loop -/

/-- Phase-dependent temperature setpoints (`tempTargetByState`). -/
def tempTargetByState : Phase → ℚ
  | .IDLE => 35
  | .CLOSING => 90
  | .HEATING => TARGET_TEMP
  | .PRESSING => TARGET_TEMP
  | .COOLING => 80
  | .OPENING => 45

/-- `['HEATING', 'PRESSING'].includes(state) ? 26 : 18`. -/
def thermalTau (p : Phase) : ℚ :=
  if p = Phase.HEATING ∨ p = Phase.PRESSING then 26 else 18

/-- One `Math.random()` draw (a value in `[0, 1)`) for each call the tick
callback makes, in source order. -/
structure Noise where
  tempRnd : ℚ
  pressureRnd : ℚ
  cycleJitterRnd : ℚ
  tempRejectRnd : ℚ
  leakRnd : ℚ
  pressureRejectRnd : ℚ
  vibBaseRnd : ℚ
  vibCritRnd : ℚ
  vibCritMagRnd : ℚ
  vibRejectRnd : ℚ
  vibWarnRnd : ℚ
  vibWarnMagRnd : ℚ
  healthRnd : ℚ
  deriving DecidableEq, Repr

/-- The mutable engine state the tick callback reads and writes: React
state (`machineState`, `phaseTime`, `totalCycles`, `rejectCount`,
`tempDeviation`, `pressureDeviation`, `healthIndex`, `lastCycleTime`) and
refs (`currentTemp`, `currentPressure`, `currentVibration`).  Wall-clock
fields (`cycleTime`, sample time strings) are presentation-only and are not
modelled. -/
structure EngineState where
  machineState : Phase
  phaseTime : Nat
  totalCycles : Nat
  rejectCount : Nat
  temp : ℚ
  pressure : ℚ
  vibration : ℚ
  tempDeviation : ℚ
  pressureDeviation : ℚ
  healthIndex : ℚ
  lastCycleTime : ℚ
  deriving DecidableEq, Repr

/-- The telemetry sample (`newDataPoint`) pushed into the circular buffer
each tick.  Numeric fields are stored through `parseFloat(x.toFixed(1))`,
modelled by `round1`. -/
structure DataPoint where
  temp : ℚ
  predictedTemp : ℚ
  pressure : ℚ
  vibration : ℚ
  state : Phase
  tempDeviation : ℚ
  pressureDeviation : ℚ
  vibrationStatus : Option Severity
  deriving DecidableEq, Repr

/-- Everything one tick produces: the next engine state, the telemetry
sample, the alert candidates offered to `addAlert` this tick (by source
branch), and the cycle-completed signal. -/
structure TickResult where
  state : EngineState
  sample : DataPoint
  tempOffer : Option Severity
  pressureOffer : Option Severity
  vibOffer : Option Severity
  cycleCompleted : Bool
  deriving DecidableEq, Repr

/-- One tick of the physics simulation loop (the `setInterval` callback).
The phase used by the physics is the phase at tick entry
(`machineStateRef.current` is refreshed between ticks), the FSM update
computes the next phase.  Each `Math.random()` is one field of `n`. -/
def tick (s : EngineState) (n : Noise) : TickResult :=
  let p := s.machineState
  let fsm := fsmTick { phase := p, phaseTime := s.phaseTime }
  let completed := fsm.2
  let totalCycles' := if completed then s.totalCycles + 1 else s.totalCycles
  let lastCycleTime' := if completed then (45 : ℚ) + (n.cycleJitterRnd * 2 - 1) else s.lastCycleTime
  let tempNoise := (n.tempRnd - 0.5) * 0.8
  let pressureNoise := (n.pressureRnd - 0.5) * 0.6
  let predictedT :=
    clamp (s.temp + (tempTargetByState p - s.temp) / thermalTau p * 1)
      BRAKE_PAD_TEMP_MIN BRAKE_PAD_TEMP_MAX
  let temp' := clamp (predictedT + tempNoise) BRAKE_PAD_TEMP_MIN BRAKE_PAD_TEMP_MAX
  let tempDev := tempDeviationOf p temp'
  let tempOffer := tempAlert p temp'
  let tempDeviation' :=
    if p = Phase.HEATING ∨ p = Phase.PRESSING then tempDev else s.tempDeviation
  let pumpFlow : ℚ :=
    if p = Phase.CLOSING ∨ p = Phase.HEATING ∨ p = Phase.PRESSING then 3.4 else 0
  let baseLeakFlow := 0.9 + n.leakRnd * 0.2
  let pistonArea : ℚ := 1.1
  let moldVelocity : ℚ := if p = Phase.OPENING then 1.1 else 0.25
  let compliance : ℚ := 0.18
  let reliefFlow := max 0 ((s.pressure - 235) * 0.05)
  let dP := (pumpFlow - baseLeakFlow - reliefFlow - pistonArea * moldVelocity) / compliance
  let pressureStep := s.pressure + dP * 1
  let pressure' :=
    clamp (pressureStep + pressureNoise) BRAKE_PAD_PRESSURE_MIN BRAKE_PAD_PRESSURE_MAX
  let pressureDev := pressureDeviationOf p pressure'
  let pressureOffer := pressureAlert p pressure'
  let pressureDeviation' := if p = Phase.PRESSING then pressureDev else s.pressureDeviation
  let baseVibration := 2 + n.vibBaseRnd * 2
  let vib : ℚ × Option Severity :=
    if p = Phase.PRESSING then
      if n.vibCritRnd > 0.92 then (6 + n.vibCritMagRnd * 4, some Severity.critical)
      else if n.vibWarnRnd > 0.88 then (4.5 + n.vibWarnMagRnd * 1, some Severity.warning)
      else (baseVibration, none)
    else (baseVibration, none)
  let vibration' := vib.1
  let vibrationStatus := vib.2
  let rejectCount' := s.rejectCount + tempRejectInc p temp' n.tempRejectRnd +
    pressureRejectInc p pressure' n.pressureRejectRnd +
    (if vibrationStatus = some Severity.critical ∧ n.vibRejectRnd > 0.6 then 1 else 0)
  let sample : DataPoint :=
    { temp := round1 temp'
      predictedTemp := round1 predictedT
      pressure := round1 pressure'
      vibration := round1 vibration'
      state := p
      tempDeviation := round1 tempDev
      pressureDeviation := round1 pressureDev
      vibrationStatus := vibrationStatus }
  let healthIndex' :=
    computeHealth tempDev pressureDev s.rejectCount s.totalCycles vibration' n.healthRnd
  { state :=
      { machineState := fsm.1.phase
        phaseTime := fsm.1.phaseTime
        totalCycles := totalCycles'
        rejectCount := rejectCount'
        temp := temp'
        pressure := pressure'
        vibration := vibration'
        tempDeviation := tempDeviation'
        pressureDeviation := pressureDeviation'
        healthIndex := healthIndex'
        lastCycleTime := lastCycleTime' }
    sample := sample
    tempOffer := tempOffer
    pressureOffer := pressureOffer
    vibOffer := vibrationStatus
    cycleCompleted := completed }

/-- Run the engine for a list of ticks (one `Noise` record per tick). -/
def runEngine (s : EngineState) : List Noise → EngineState
  | [] => s
  | n :: rest => runEngine (tick s n).state rest

/-- The initial React state of the dashboard: phase IDLE with elapsed 0,
`totalCycles = 124`, `rejectCount = 3`, `currentTemp = 25`,
`currentPressure = 0`, deviations 0, `healthIndex = 85`,
`lastCycleTime = 45.2`. -/
def initialEngineState : EngineState :=
  { machineState := Phase.IDLE
    phaseTime := 0
    totalCycles := 124
    rejectCount := 3
    temp := 25
    pressure := 0
    vibration := 0
    tempDeviation := 0
    pressureDeviation := 0
    healthIndex := 85
    lastCycleTime := 45.2 }

/-- The neutral random stream: every `Math.random()` draw is `1/2` (so the
temperature and pressure noises are `0`, no stochastic excursion fires and
no reject is drawn). -/
def noiseZero : Noise :=
  { tempRnd := 1/2, pressureRnd := 1/2, cycleJitterRnd := 1/2, tempRejectRnd := 1/2
    leakRnd := 1/2, pressureRejectRnd := 1/2, vibBaseRnd := 1/2, vibCritRnd := 1/2
    vibCritMagRnd := 1/2, vibRejectRnd := 1/2, vibWarnRnd := 1/2, vibWarnMagRnd := 1/2
    healthRnd := 1/2 }

/-- The engine trajectory from the initial dashboard state under the
neutral random stream. -/
def trace : Nat → EngineState
  | 0 => initialEngineState
  | k + 1 => (tick (trace k) noiseZero).state

/-- The phase-machine projection of the same trajectory. -/
def fsmTrace : Nat → FsmState
  | 0 => { phase := Phase.IDLE, phaseTime := 0 }
  | k + 1 => (fsmTick (fsmTrace k)).1

/-- First alert of the deduplication scenario. -/
def msgLow : String := "Temperature Low"

/-- Second alert of the deduplication scenario. -/
def msgVib : String := "Vibration Warning"

/-- Alert-manager state after accepting a critical alert at time 0 and a
warning alert at time 1000. -/
def c5pre : AlertMgr :=
  runAlerts
    [{ msg := msgLow, type := Severity.critical, time := 0 },
     { msg := msgVib, type := Severity.warning, time := 1000 }]

/-! ### Helper lemmas: clamp and tick projections -/

lemma clamp_le (x lo hi : ℚ) : clamp x lo hi ≤ hi := min_le_left _ _

lemma le_clamp (x lo hi : ℚ) (h : lo ≤ hi) : lo ≤ clamp x lo hi :=
  le_min h (le_max_left _ _)

lemma clamp_lt_of_lt (x lo hi b : ℚ) (hlo : lo < b) (hx : x < b) : clamp x lo hi < b :=
  lt_of_le_of_lt (min_le_right _ _) (max_lt hlo hx)

lemma round1_zero : round1 0 = 0 := by
  have h : ⌊((0 : ℚ) * 10 + 1 / 2)⌋ = 0 := by
    rw [Int.floor_eq_zero_iff]
    constructor <;> norm_num
  unfold round1
  rw [h]
  norm_num

lemma tick_temp_eq (s : EngineState) (n : Noise) :
    (tick s n).state.temp =
      clamp
        (clamp (s.temp + (tempTargetByState s.machineState - s.temp) / thermalTau s.machineState * 1)
            BRAKE_PAD_TEMP_MIN BRAKE_PAD_TEMP_MAX +
          (n.tempRnd - 0.5) * 0.8)
        BRAKE_PAD_TEMP_MIN BRAKE_PAD_TEMP_MAX := rfl

lemma tick_temp_bounds (s : EngineState) (n : Noise) :
    25 ≤ (tick s n).state.temp ∧ (tick s n).state.temp ≤ 220 := by
  rw [tick_temp_eq]
  refine ⟨?_, ?_⟩
  · have h := le_clamp
      (clamp (s.temp + (tempTargetByState s.machineState - s.temp) / thermalTau s.machineState * 1)
          BRAKE_PAD_TEMP_MIN BRAKE_PAD_TEMP_MAX +
        (n.tempRnd - 0.5) * 0.8)
      BRAKE_PAD_TEMP_MIN BRAKE_PAD_TEMP_MAX
      (by norm_num [BRAKE_PAD_TEMP_MIN, BRAKE_PAD_TEMP_MAX])
    exact h
  · exact clamp_le _ _ _

lemma tick_pressure_eq (s : EngineState) (n : Noise) :
    (tick s n).state.pressure =
      clamp
        (s.pressure +
            ((if s.machineState = Phase.CLOSING ∨ s.machineState = Phase.HEATING ∨
                  s.machineState = Phase.PRESSING then (3.4 : ℚ) else 0) -
                  (0.9 + n.leakRnd * 0.2) -
                  max 0 ((s.pressure - 235) * 0.05) -
                  1.1 * (if s.machineState = Phase.OPENING then (1.1 : ℚ) else 0.25)) /
                0.18 * 1 +
          (n.pressureRnd - 0.5) * 0.6)
        BRAKE_PAD_PRESSURE_MIN BRAKE_PAD_PRESSURE_MAX := rfl

lemma tick_pressure_bounds (s : EngineState) (n : Noise) :
    0 ≤ (tick s n).state.pressure ∧ (tick s n).state.pressure ≤ 260 := by
  rw [tick_pressure_eq]
  exact ⟨le_clamp _ _ _ (by norm_num [BRAKE_PAD_PRESSURE_MIN, BRAKE_PAD_PRESSURE_MAX]),
    clamp_le _ _ _⟩

lemma tick_machineState (s : EngineState) (n : Noise) :
    (tick s n).state.machineState =
      (fsmTick { phase := s.machineState, phaseTime := s.phaseTime }).1.phase := rfl

lemma tick_phaseTime (s : EngineState) (n : Noise) :
    (tick s n).state.phaseTime =
      (fsmTick { phase := s.machineState, phaseTime := s.phaseTime }).1.phaseTime := rfl

lemma tick_totalCycles (s : EngineState) (n : Noise) :
    (tick s n).state.totalCycles =
      (if (fsmTick { phase := s.machineState, phaseTime := s.phaseTime }).2 then
        s.totalCycles + 1 else s.totalCycles) := rfl

lemma tick_sample_tempDeviation (s : EngineState) (n : Noise) :
    (tick s n).sample.tempDeviation =
      round1 (tempDeviationOf s.machineState (tick s n).state.temp) := rfl

lemma tick_state_tempDeviation (s : EngineState) (n : Noise) :
    (tick s n).state.tempDeviation =
      (if s.machineState = Phase.HEATING ∨ s.machineState = Phase.PRESSING then
        tempDeviationOf s.machineState (tick s n).state.temp else s.tempDeviation) := rfl

lemma tick_sample_pressureDeviation (s : EngineState) (n : Noise) :
    (tick s n).sample.pressureDeviation =
      round1 (pressureDeviationOf s.machineState (tick s n).state.pressure) := rfl

lemma tick_state_pressureDeviation (s : EngineState) (n : Noise) :
    (tick s n).state.pressureDeviation =
      (if s.machineState = Phase.PRESSING then
        pressureDeviationOf s.machineState (tick s n).state.pressure
      else s.pressureDeviation) := rfl

lemma tick_tempOffer (s : EngineState) (n : Noise) :
    (tick s n).tempOffer = tempAlert s.machineState (tick s n).state.temp := rfl

lemma tick_pressureOffer (s : EngineState) (n : Noise) :
    (tick s n).pressureOffer = pressureAlert s.machineState (tick s n).state.pressure := rfl

/-! ### Helper lemmas: the neutral trajectory -/

lemma trace_fsm (k : Nat) :
    (trace k).machineState = (fsmTrace k).phase ∧ (trace k).phaseTime = (fsmTrace k).phaseTime := by
  induction k with
  | zero => exact ⟨rfl, rfl⟩
  | succ k ih =>
    obtain ⟨h1, h2⟩ := ih
    constructor
    · show (fsmTick { phase := (trace k).machineState, phaseTime := (trace k).phaseTime }).1.phase =
        (fsmTick (fsmTrace k)).1.phase
      rw [h1, h2]
    · show (fsmTick { phase := (trace k).machineState, phaseTime := (trace k).phaseTime }).1.phaseTime =
        (fsmTick (fsmTrace k)).1.phaseTime
      rw [h1, h2]

lemma tick_temp_lt_165 (s : EngineState) (h : s.temp < 165) :
    (tick s noiseZero).state.temp < 165 := by
  rw [tick_temp_eq]
  have hn : ((noiseZero.tempRnd - 0.5) * 0.8 : ℚ) = 0 := by norm_num [noiseZero]
  rw [hn, add_zero]
  refine clamp_lt_of_lt _ _ _ _ (by norm_num [BRAKE_PAD_TEMP_MIN]) ?_
  refine clamp_lt_of_lt _ _ _ _ (by norm_num [BRAKE_PAD_TEMP_MIN]) ?_
  cases hp : s.machineState <;>
    simp [hp, tempTargetByState, thermalTau, TARGET_TEMP, mul_one] <;>
    linarith

lemma trace_temp_lt (k : Nat) : (trace k).temp < 165 := by
  induction k with
  | zero => norm_num [trace, initialEngineState]
  | succ k ih => exact tick_temp_lt_165 _ ih

/-! ### Helper lemmas: the circular buffer -/

lemma cbinv_nil {α : Type} : CBInv ([] : List α) (CircularBuffer.mkEmpty α 60) := by
  refine ⟨rfl, rfl, rfl, ?_⟩
  intro p hp _
  simp at hp

lemma cbinv_push {α : Type} (xs : List α) (x : α) (cb : CircularBuffer α)
    (h : CBInv xs cb) : CBInv (xs ++ [x]) (cb.push x) := by
  obtain ⟨hsize, hlen, hidx, hbuf⟩ := h
  refine ⟨hsize, ?_, ?_, ?_⟩
  · show min (cb.length + 1) cb.size = min (xs ++ [x]).length 60
    rw [hsize, hlen, List.length_append]
    simp only [List.length_singleton]
    omega
  · show (cb.index + 1) % cb.size = (xs ++ [x]).length % 60
    rw [hsize, hidx, List.length_append]
    simp only [List.length_singleton]
    omega
  · intro p hp hge
    rw [List.length_append, List.length_singleton] at hp hge
    show (if p % 60 = cb.index then some x else cb.buffer (p % 60)) = (xs ++ [x])[p]?
    by_cases hpe : p = xs.length
    · subst hpe
      rw [if_pos (by rw [hidx]), List.getElem?_append_right (le_refl _)]
      simp
    · have hplt : p < xs.length := by omega
      rw [if_neg (by rw [hidx]; omega)]
      rw [hbuf p hplt (by omega), List.getElem?_append, if_pos hplt]

lemma cbinv_dataBuffer {α : Type} (xs : List α) : CBInv xs (dataBuffer xs) := by
  induction xs using List.reverseRecOn with
  | nil => exact cbinv_nil
  | append_singleton ys y ih =>
    have he : dataBuffer (ys ++ [y]) = (dataBuffer ys).push y := by
      unfold dataBuffer
      rw [List.foldl_append]
      rfl
    rw [he]
    exact cbinv_push ys y _ ih

lemma toArray_eq_of_inv {α : Type} (xs : List α) (cb : CircularBuffer α)
    (h : CBInv xs cb) : cb.toArray = (xs.drop (xs.length - 60)).map some := by
  obtain ⟨hsize, hlen, hidx, hbuf⟩ := h
  apply List.ext_getElem?
  intro i
  by_cases hi : i < min xs.length 60
  · have hiL : i < cb.length := by omega
    have harg : (cb.index + cb.size + i - cb.length) % cb.size =
        (xs.length - 60 + i) % 60 := by
      rw [hsize, hidx, hlen]
      omega
    have hplt : xs.length - 60 + i < xs.length := by omega
    rw [CircularBuffer.toArray, List.getElem?_map,
      List.getElem?_range hiL, Option.map_some']
    rw [harg, hbuf (xs.length - 60 + i) hplt (by omega)]
    rw [List.getElem?_map, List.getElem?_drop]
    rw [List.getElem?_eq_getElem hplt]
    simp
  · have h1 : cb.toArray.length ≤ i := by
      rw [CircularBuffer.toArray, List.length_map, List.length_range]
      omega
    have h2 : ((xs.drop (xs.length - 60)).map some).length ≤ i := by
      rw [List.length_map, List.length_drop]
      omega
    rw [List.getElem?_eq_none h1, List.getElem?_eq_none h2]

/-! ### Helper lemmas: the alert manager -/

instance : IsTotal Alert alertLE := by
  constructor
  intro a b
  unfold alertLE compareFn
  by_cases hp : ALERT_PRIORITY b.type - ALERT_PRIORITY a.type = 0
  · simp only [hp]
    omega
  · simp only [hp]
    omega

instance : IsTrans Alert alertLE := by
  constructor
  intro a b c hab hbc
  unfold alertLE compareFn at *
  by_cases h1 : ALERT_PRIORITY b.type - ALERT_PRIORITY a.type = 0 <;>
    by_cases h2 : ALERT_PRIORITY c.type - ALERT_PRIORITY b.type = 0 <;>
    simp only [h1, h2] at hab hbc <;>
    by_cases h3 : ALERT_PRIORITY c.type - ALERT_PRIORITY a.type = 0 <;>
    simp only [h3] <;>
    omega

lemma alertLE_severityDesc {a b : Alert} (h : alertLE a b) : severityDesc a b := by
  unfold alertLE compareFn at h
  unfold severityDesc
  by_cases hp : ALERT_PRIORITY b.type - ALERT_PRIORITY a.type = 0 <;>
    simp only [hp] at h <;>
    omega

lemma enqueue_length (items : List Alert) (a : Alert) :
    (enqueue items a).length = items.length + 1 := by
  unfold enqueue
  rw [List.length_insertionSort, List.length_append, List.length_singleton]

lemma accept_items_length (st : AlertMgr) (a : Alert) :
    (st.accept a).items.length = st.items.length + 1 :=
  enqueue_length st.items a

lemma accept_ne (st : AlertMgr) (a : Alert) : st.accept a ≠ st := by
  intro he
  have h := congrArg (fun m => m.items.length) he
  simp only at h
  rw [accept_items_length] at h
  omega

lemma mgrInv_addAlert (msg : String) (type : Severity) (now : ℤ) (st : AlertMgr)
    (h : MgrInv st) : MgrInv (addAlert msg type now st) := by
  have haccept : ∀ a : Alert, MgrInv (st.accept a) := by
    intro a
    exact ⟨List.sorted_insertionSort alertLE _, rfl⟩
  unfold addAlert
  cases st.alerts with
  | nil => exact haccept _
  | cons a rest =>
    show MgrInv (if a.msg = msg ∧ now - a.time < 5000 then st
      else st.accept { msg := msg, type := type, time := now })
    by_cases hc : a.msg = msg ∧ now - a.time < 5000
    · rw [if_pos hc]
      exact h
    · rw [if_neg hc]
      exact haccept _

lemma mgrInv_foldl (os : List Offer) (st : AlertMgr) (h : MgrInv st) :
    MgrInv (os.foldl (fun st o => addAlert o.msg o.type o.time st) st) := by
  induction os generalizing st with
  | nil => exact h
  | cons o os ih => exact ih _ (mgrInv_addAlert o.msg o.type o.time st h)

lemma mgrInv_runAlerts (os : List Offer) : MgrInv (runAlerts os) :=
  mgrInv_foldl os _ ⟨List.sorted_nil, rfl⟩

lemma addAlert_suppressed (msg : String) (type : Severity) (now : ℤ) (st : AlertMgr)
    (a : Alert) (hhead : st.alerts.head? = some a) (hmsg : a.msg = msg)
    (htime : now - a.time < 5000) : addAlert msg type now st = st := by
  unfold addAlert
  cases hA : st.alerts with
  | nil => rw [hA] at hhead; simp at hhead
  | cons b rest =>
    rw [hA] at hhead
    simp only [List.head?_cons, Option.some_inj] at hhead
    subst hhead
    show (if b.msg = msg ∧ now - b.time < 5000 then st
      else st.accept { msg := msg, type := type, time := now }) = st
    rw [if_pos ⟨hmsg, htime⟩]

lemma addAlert_accepted (msg : String) (type : Severity) (now : ℤ) (st : AlertMgr)
    (h : ∀ a ∈ st.alerts, a.msg = msg → 5000 ≤ now - a.time) :
    (addAlert msg type now st).items.length = st.items.length + 1 := by
  unfold addAlert
  cases hA : st.alerts with
  | nil => exact accept_items_length st _
  | cons b rest =>
    have hb : b ∈ st.alerts := by rw [hA]; exact List.mem_cons_self b rest
    show (if b.msg = msg ∧ now - b.time < 5000 then st
        else st.accept { msg := msg, type := type, time := now }).items.length =
      st.items.length + 1
    rw [if_neg ?_]
    · exact accept_items_length st _
    · rintro ⟨hmsg, htime⟩
      have := h b hb hmsg
      omega

/-! ### Claim C1 -/

/-- Claim C1: after every tick of the simulation loop the process state's
temperature lies in `[25, 220]` °C and its pressure in `[0, 260]` bar,
regardless of the pseudo-random noise of that tick; since this holds for an
arbitrary pre-state and an arbitrary further run of the engine, it holds
for every reachable state after any positive number of ticks. -/
theorem temp_pressure_clamp_invariant (s : EngineState) (n : Noise) (ns : List Noise) :
    25 ≤ (runEngine (tick s n).state ns).temp ∧
      (runEngine (tick s n).state ns).temp ≤ 220 ∧
      0 ≤ (runEngine (tick s n).state ns).pressure ∧
      (runEngine (tick s n).state ns).pressure ≤ 260 := by
  induction ns generalizing s n with
  | nil =>
    obtain ⟨h1, h2⟩ := tick_temp_bounds s n
    obtain ⟨h3, h4⟩ := tick_pressure_bounds s n
    exact ⟨h1, h2, h3, h4⟩
  | cons m ms ih => exact ih (tick s n).state m

/-! ### Claim C2 -/

/-- Claim C2: for every sequence of pushed samples the ring store's snapshot
holds exactly `min n 60` samples, is exactly the chronological (oldest-first)
suffix of the pushed sequence regardless of the wraparound position, and
after 61 or more pushes its first element is the sample pushed 60 pushes
ago. -/
theorem ring_snapshot_chronological {α : Type} (xs : List α) :
    (dataBuffer xs).toArray.length = min xs.length 60 ∧
      (dataBuffer xs).toArray = (xs.drop (xs.length - 60)).map some ∧
      (61 ≤ xs.length →
        (dataBuffer xs).toArray.head? = some (xs[xs.length - 60]?))
    := by
  have he := toArray_eq_of_inv xs _ (cbinv_dataBuffer xs)
  refine ⟨?_, he, ?_⟩
  · rw [he, List.length_map, List.length_drop]
    omega
  · intro hn
    rw [he, List.head?_eq_getElem?, List.getElem?_map, List.getElem?_drop, Nat.add_zero]
    rw [List.getElem?_eq_getElem (show xs.length - 60 < xs.length by omega)]
    simp

/-- Witness for C2, at the concrete push sequence `0, 1, …, 60` (61 pushes):
the snapshot's first element is the sample pushed 60 pushes ago. -/
theorem ring_snapshot_chronological_witness :
    61 ≤ (List.range 61).length ∧
      (dataBuffer (List.range 61)).toArray.head? =
        some ((List.range 61)[(List.range 61).length - 60]?) :=
  ⟨by simp, (ring_snapshot_chronological (List.range 61)).2.2 (by simp)⟩

/-! ### Claim C3 -/

set_option maxRecDepth 8000 in
/-- Claim C3: phase transitions are purely duration-based in the fixed cyclic
order IDLE→CLOSING→HEATING→PRESSING→COOLING→OPENING→IDLE with durations
5, 3, 15, 10, 8, 4: when the elapsed counter reaches the current duration it
resets to 0 and the next phase becomes active (the completion signal firing
exactly on OPENING→IDLE), otherwise only the counter advances; starting from
IDLE with elapsed 0, after 45 ticks (the sum of the six durations) the phase
is IDLE with elapsed 0 again and the cycle-completed signal fired exactly
once; and the engine tick drives its phase, elapsed time and total cycle
count exactly through this machine, incrementing the count by exactly 1 on
completion. -/
theorem phase_cycle_deterministic :
    (∀ (p : Phase) (e : Nat), e + 1 ≥ p.duration →
        fsmTick { phase := p, phaseTime := e } =
          ({ phase := p.next, phaseTime := 0 }, decide (p = Phase.OPENING))) ∧
      (∀ (p : Phase) (e : Nat), e + 1 < p.duration →
        fsmTick { phase := p, phaseTime := e } = ({ phase := p, phaseTime := e + 1 }, false)) ∧
      (Phase.IDLE.next = Phase.CLOSING ∧ Phase.CLOSING.next = Phase.HEATING ∧
        Phase.HEATING.next = Phase.PRESSING ∧ Phase.PRESSING.next = Phase.COOLING ∧
        Phase.COOLING.next = Phase.OPENING ∧ Phase.OPENING.next = Phase.IDLE) ∧
      (Phase.IDLE.duration = 5 ∧ Phase.CLOSING.duration = 3 ∧ Phase.HEATING.duration = 15 ∧
        Phase.PRESSING.duration = 10 ∧ Phase.COOLING.duration = 8 ∧
        Phase.OPENING.duration = 4) ∧
      Phase.IDLE.duration + Phase.CLOSING.duration + Phase.HEATING.duration +
          Phase.PRESSING.duration + Phase.COOLING.duration + Phase.OPENING.duration = 45 ∧
      fsmIter 45 { phase := Phase.IDLE, phaseTime := 0 } =
        ({ phase := Phase.IDLE, phaseTime := 0 }, 1) ∧
      (∀ (s : EngineState) (n : Noise),
        (tick s n).state.machineState =
            (fsmTick { phase := s.machineState, phaseTime := s.phaseTime }).1.phase ∧
          (tick s n).state.phaseTime =
            (fsmTick { phase := s.machineState, phaseTime := s.phaseTime }).1.phaseTime ∧
          (tick s n).state.totalCycles =
            (if (fsmTick { phase := s.machineState, phaseTime := s.phaseTime }).2 then
              s.totalCycles + 1 else s.totalCycles)) := by
  refine ⟨?_, ?_, by decide, by decide, by decide, by decide, ?_⟩
  · intro p e h
    unfold fsmTick
    rw [if_pos h]
    cases p <;> rfl
  · intro p e h
    unfold fsmTick
    dsimp only
    rw [if_neg (by omega)]
  · intro s n
    exact ⟨tick_machineState s n, tick_phaseTime s n, tick_totalCycles s n⟩

/-- Witness for C3: at phase IDLE with elapsed 4 the incremented counter
reaches the duration 5, so the machine transitions. -/
theorem phase_cycle_deterministic_witness :
    fsmTick { phase := Phase.IDLE, phaseTime := 4 } =
      ({ phase := Phase.IDLE.next, phaseTime := 0 }, decide (Phase.IDLE = Phase.OPENING)) :=
  phase_cycle_deterministic.1 Phase.IDLE 4 (by decide)

/-! ### Claim C4 -/

/-- Claim C4: at every point in execution (i.e. after any sequence of
`addAlert` offers starting from the empty dashboard) the exposed alert list
holds at most 10 entries and is ordered by severity descending
(critical > warning > info) with ties broken by timestamp, most recent
first. -/
theorem alert_list_bounded_sorted (offers : List Offer) :
    (runAlerts offers).alerts.length ≤ 10 ∧
      (runAlerts offers).alerts.Pairwise severityDesc := by
  obtain ⟨hs, ha⟩ := mgrInv_runAlerts offers
  constructor
  · rw [ha, List.length_take]
    omega
  · rw [ha]
    exact ((hs.sublist (List.take_sublist 10 _)).imp fun h => alertLE_severityDesc h)

/-! ### Claim C5 -/

/-- Counterexample to claim C5 as stated.  Run the manager through a
critical alert at time 0 and a warning alert at time 1000 (both accepted);
the warning alert is the most recently accepted one (maximal timestamp in
the queue).  Offering the same warning message again at time 2000 — within
5 seconds of the most recently accepted alert with identical text — is NOT
suppressed: the state changes and the exposed list grows from 2 to 3
entries, because the code compares against `alerts[0]`, the head of the
severity-sorted list (here the critical alert), not against the most
recently accepted alert. -/
theorem dedup_most_recent_counterexample :
    (∃ a ∈ c5pre.items, a.msg = msgVib ∧ a.time = 1000 ∧
        ∀ b ∈ c5pre.items, b.time ≤ a.time) ∧
      ((2000 : ℤ) - 1000 < 5000) ∧
      addAlert msgVib Severity.warning 2000 c5pre ≠ c5pre ∧
      (addAlert msgVib Severity.warning 2000 c5pre).alerts.length =
        c5pre.alerts.length + 1 := by
  decide

/-- Claim C5, amended: a candidate is suppressed exactly when the FIRST
entry of the exposed (severity-sorted) alert list — not the most recently
accepted alert — carries the identical message text and lies within 5
seconds of the offer; in every other case the candidate is accepted (the
queue grows by one entry).  In particular two identical messages offered
more than 5 seconds apart are both accepted as long as no other listed
alert shares that message text more recently. -/
theorem dedup_head_based (msg : String) (type : Severity) (now : ℤ) (st : AlertMgr) :
    (addAlert msg type now st = st ↔
        ∃ a, st.alerts.head? = some a ∧ a.msg = msg ∧ now - a.time < 5000) ∧
      ((∀ a ∈ st.alerts, a.msg = msg → 5000 ≤ now - a.time) →
        (addAlert msg type now st).items.length = st.items.length + 1) := by
  constructor
  · constructor
    · intro he
      cases hA : st.alerts with
      | nil =>
        exfalso
        unfold addAlert at he
        rw [hA] at he
        exact accept_ne st _ he
      | cons b rest =>
        refine ⟨b, by simp [hA], ?_⟩
        by_cases hc : b.msg = msg ∧ now - b.time < 5000
        · exact hc
        · exfalso
          unfold addAlert at he
          rw [hA] at he
          rw [show (match b :: rest with
              | prev0 :: _ =>
                if prev0.msg = msg ∧ now - prev0.time < 5000 then st
                else st.accept { msg := msg, type := type, time := now }
              | [] => st.accept { msg := msg, type := type, time := now }) =
              (if b.msg = msg ∧ now - b.time < 5000 then st
                else st.accept { msg := msg, type := type, time := now }) from rfl,
            if_neg hc] at he
          exact accept_ne st _ he
    · rintro ⟨a, hhead, hmsg, htime⟩
      exact addAlert_suppressed msg type now st a hhead hmsg htime
  · intro h
    exact addAlert_accepted msg type now st h

/-- Witness for C5 (amended): offering the warning message again 8 seconds
after its only listed occurrence is accepted, the queue growing by one. -/
theorem dedup_head_based_witness :
    (addAlert msgVib Severity.warning 9000 c5pre).items.length =
      c5pre.items.length + 1 :=
  (dedup_head_based msgVib Severity.warning 9000 c5pre).2 (by decide)

/-! ### Claim C6 -/

lemma reject_rate_eq (rejects totalCycles : Nat) :
    (if 0 < rejects then (rejects : ℚ) / max 1 (totalCycles : ℚ) else 0) =
      (rejects : ℚ) / max 1 (totalCycles : ℚ) := by
  split_ifs with h
  · rfl
  · have h0 : rejects = 0 := by omega
    subst h0
    simp

lemma vib_penalty_eq (v : ℚ) :
    (if v > VIBRATION_CRITICAL then (80 : ℚ)
      else if v > VIBRATION_WARNING then 40
      else if v > VIBRATION_SAFE then 20
      else 5) =
      (if v ≤ VIBRATION_SAFE then (5 : ℚ)
        else if v ≤ VIBRATION_WARNING then 20
        else if v ≤ VIBRATION_CRITICAL then 40
        else 80) := by
  unfold VIBRATION_SAFE VIBRATION_WARNING VIBRATION_CRITICAL
  split_ifs <;> linarith

/-- Claim C6: on every tick the health index is recomputed as
`100 − (0.4·tempPenalty + 0.3·pressurePenalty + 0.2·rejectPenalty +
0.1·vibrationPenalty)` with the stated penalty formulas (the vibration
penalty being the 5/20/40/80 step function of the vibration thresholds),
plus a symmetric jitter of magnitude at most `1/2` (for any draw in
`[0, 1]`), and the result always lies in `[5, 100]`. -/
theorem health_index_formula (tempDev pressureDev : ℚ) (rejects totalCycles : Nat)
    (vib rnd : ℚ) :
    computeHealth tempDev pressureDev rejects totalCycles vib rnd =
        healthIndexSpec tempDev pressureDev rejects totalCycles vib ((rnd - 0.5) * 1) ∧
      5 ≤ computeHealth tempDev pressureDev rejects totalCycles vib rnd ∧
      computeHealth tempDev pressureDev rejects totalCycles vib rnd ≤ 100 ∧
      (0 ≤ rnd → rnd ≤ 1 → |(rnd - 0.5) * 1| ≤ 1 / 2) := by
  refine ⟨?_, ?_, ?_, ?_⟩
  · unfold computeHealth healthIndexSpec
    rw [reject_rate_eq, vib_penalty_eq]
  · unfold computeHealth
    exact le_max_left _ _
  · unfold computeHealth
    exact max_le (by norm_num) (min_le_left _ _)
  · intro h0 h1
    rw [abs_le]
    constructor <;> [norm_num; skip] <;> linarith

/-- Witness for C6: at deviations 0, 0 rejects over 1 cycle, vibration 3
and the central draw `1/2`, the code value matches the specification
formula and the jitter bound holds. -/
theorem health_index_formula_witness :
    computeHealth 0 0 0 1 3 (1/2) = healthIndexSpec 0 0 0 1 3 ((1/2 - 0.5) * 1) ∧
      |((1/2 : ℚ) - 0.5) * 1| ≤ 1 / 2 :=
  ⟨(health_index_formula 0 0 0 1 3 (1/2)).1,
    (health_index_formula 0 0 0 1 3 (1/2)).2.2.2 (by norm_num) (by norm_num)⟩

/-! ### Claim C7 -/

/-- Claim C7: the reported OEE is
`availability × performance × quality × 100` with
`availability = 0.98` when running and `0.7` otherwise,
`performance = max(0.6, 0.95 − |tempDev|/1000 − |pressureDev|/1000)` and
`quality = max(0.55, 1 − rejects/max(1, totalCycles))`, clamped to
`[50, 100]`; hence the reported OEE always lies in `[50, 100]`. -/
theorem oee_formula_bounds (isRunning : Bool) (tempDeviation pressureDeviation : ℚ)
    (rejectCount totalCycles : Nat) :
    oeeDisplayed isRunning tempDeviation pressureDeviation rejectCount totalCycles =
        oeeSpec isRunning tempDeviation pressureDeviation rejectCount totalCycles ∧
      50 ≤ oeeDisplayed isRunning tempDeviation pressureDeviation rejectCount totalCycles ∧
      oeeDisplayed isRunning tempDeviation pressureDeviation rejectCount totalCycles ≤ 100 := by
  refine ⟨?_, ?_, ?_⟩
  · unfold oeeDisplayed oeeSpec
    have hperf : (max 0.6 (0.95 - |tempDeviation| / 100 * 0.1 - |pressureDeviation| / 100 * 0.1) : ℚ) =
        max 0.6 (0.95 - |tempDeviation| / 1000 - |pressureDeviation| / 1000) := by
      congr 1
      ring
    rw [hperf]
  · unfold oeeDisplayed
    exact le_max_left _ _
  · unfold oeeDisplayed
    exact max_le (by norm_num) (min_le_left _ _)

/-! ### Claim C8 -/

/-- Claim C8: on every tick in phase HEATING or PRESSING whose absolute
temperature deviation exceeds the tolerance, a critical alert is offered
when the temperature is below the warning threshold (85 percent of the
target) and a warning alert otherwise; the engine tick offers exactly this
decision; and in the concrete scenario target 165, tolerance 10 percent,
phase HEATING, temperature 130 °C, the deviation is `-700/33 ≈ -21.2`
(reported as `-21.2` after rounding), the temperature is below the warning
threshold `140.25`, and a critical alert is offered. -/
theorem temp_alert_severity :
    (∀ (p : Phase) (temp : ℚ), (p = Phase.HEATING ∨ p = Phase.PRESSING) →
        |tempDeviationOf p temp| > TEMP_TOLERANCE →
        ((temp < TEMP_WARNING_THRESHOLD → tempAlert p temp = some Severity.critical) ∧
          (¬ temp < TEMP_WARNING_THRESHOLD → tempAlert p temp = some Severity.warning))) ∧
      (∀ (s : EngineState) (n : Noise),
        (tick s n).tempOffer = tempAlert s.machineState (tick s n).state.temp) ∧
      tempAlert Phase.HEATING 130 = some Severity.critical ∧
      tempDeviationOf Phase.HEATING 130 = -700 / 33 ∧
      |tempDeviationOf Phase.HEATING 130 - (-21.2)| < 1 / 20 ∧
      round1 (tempDeviationOf Phase.HEATING 130) = -21.2 ∧
      (130 : ℚ) < TEMP_WARNING_THRESHOLD ∧ TEMP_WARNING_THRESHOLD = 140.25 := by
  have hdev : tempDeviationOf Phase.HEATING 130 = -700 / 33 := by
    norm_num [tempDeviationOf, TARGET_TEMP]
  have hthr : TEMP_WARNING_THRESHOLD = 140.25 := by
    norm_num [TEMP_WARNING_THRESHOLD, TARGET_TEMP]
  have habs : |tempDeviationOf Phase.HEATING 130| > TEMP_TOLERANCE := by
    rw [hdev]
    simp only [gt_iff_lt, lt_abs]
    right
    norm_num [TEMP_TOLERANCE]
  refine ⟨?_, fun s n => tick_tempOffer s n, ?_, hdev, ?_, ?_, ?_, hthr⟩
  · intro p temp hp hdev'
    unfold tempAlert
    rw [if_pos hp, if_pos hdev']
    constructor
    · intro h
      rw [if_pos h]
    · intro h
      rw [if_neg h]
  · unfold tempAlert
    rw [if_pos (Or.inl rfl), if_pos habs, if_pos (by rw [hthr]; norm_num)]
  · rw [hdev, abs_lt]
    constructor <;> norm_num
  · rw [hdev]
    unfold round1
    rw [show ⌊((-700 / 33 : ℚ) * 10 + 1 / 2)⌋ = -212 from by
      rw [Int.floor_eq_iff]
      constructor <;> norm_num]
    norm_num
  · rw [hthr]
    norm_num

/-- Witness for C8: the scenario instance itself, obtained by applying the
general severity rule at phase HEATING and temperature 130. -/
theorem temp_alert_severity_witness :
    tempAlert Phase.HEATING 130 = some Severity.critical :=
  (temp_alert_severity.1 Phase.HEATING 130 (Or.inl rfl)
      (by
        rw [show tempDeviationOf Phase.HEATING 130 = -700 / 33 from by
          norm_num [tempDeviationOf, TARGET_TEMP]]
        simp only [gt_iff_lt, lt_abs]
        right
        norm_num [TEMP_TOLERANCE])).1
    (by norm_num [TEMP_WARNING_THRESHOLD, TARGET_TEMP])

/-! ### Claim C9 -/

/-- Claim C9, amended: temperature deviation is computed as
`(current − target)/target × 100` only while the phase is HEATING or
PRESSING and pressure deviation likewise only while PRESSING; on a tick in
any other phase the deviation recorded in the telemetry sample is 0, but
the exposed metrics deviation state is NOT reset to 0 — it retains its
previous value. -/
theorem deviation_phase_gating (s : EngineState) (n : Noise) :
    ((s.machineState ≠ Phase.HEATING ∧ s.machineState ≠ Phase.PRESSING) →
        (tick s n).sample.tempDeviation = 0 ∧
          (tick s n).state.tempDeviation = s.tempDeviation) ∧
      ((s.machineState = Phase.HEATING ∨ s.machineState = Phase.PRESSING) →
        (tick s n).sample.tempDeviation =
            round1 (((tick s n).state.temp - TARGET_TEMP) / TARGET_TEMP * 100) ∧
          (tick s n).state.tempDeviation =
            ((tick s n).state.temp - TARGET_TEMP) / TARGET_TEMP * 100) ∧
      (s.machineState ≠ Phase.PRESSING →
        (tick s n).sample.pressureDeviation = 0 ∧
          (tick s n).state.pressureDeviation = s.pressureDeviation) ∧
      (s.machineState = Phase.PRESSING →
        (tick s n).sample.pressureDeviation =
            round1 (((tick s n).state.pressure - TARGET_PRESSURE) / TARGET_PRESSURE * 100) ∧
          (tick s n).state.pressureDeviation =
            ((tick s n).state.pressure - TARGET_PRESSURE) / TARGET_PRESSURE * 100) := by
  refine ⟨?_, ?_, ?_, ?_⟩
  · rintro ⟨h1, h2⟩
    have hcond : ¬(s.machineState = Phase.HEATING ∨ s.machineState = Phase.PRESSING) := by
      rintro (h | h)
      · exact h1 h
      · exact h2 h
    constructor
    · rw [tick_sample_tempDeviation]
      unfold tempDeviationOf
      rw [if_neg hcond, round1_zero]
    · rw [tick_state_tempDeviation, if_neg hcond]
  · intro h
    constructor
    · rw [tick_sample_tempDeviation]
      unfold tempDeviationOf
      rw [if_pos h]
    · rw [tick_state_tempDeviation, if_pos h]
      unfold tempDeviationOf
      rw [if_pos h]
  · intro h1
    constructor
    · rw [tick_sample_pressureDeviation]
      unfold pressureDeviationOf
      rw [if_neg h1, round1_zero]
    · rw [tick_state_pressureDeviation, if_neg h1]
  · intro h
    constructor
    · rw [tick_sample_pressureDeviation]
      unfold pressureDeviationOf
      rw [if_pos h]
    · rw [tick_state_pressureDeviation, if_pos h]
      unfold pressureDeviationOf
      rw [if_pos h]

/-- Witness for C9 (amended): on the first tick from the initial state
(phase IDLE) the sample's temperature deviation is 0 and the exposed
deviation state keeps its previous value. -/
theorem deviation_phase_gating_witness :
    (tick initialEngineState noiseZero).sample.tempDeviation = 0 ∧
      (tick initialEngineState noiseZero).state.tempDeviation =
        initialEngineState.tempDeviation :=
  (deviation_phase_gating initialEngineState noiseZero).1 (by decide)

set_option maxRecDepth 8000 in
/-- Counterexample to claim C9 as stated.  Run the dashboard from its
initial state for 33 ticks under the neutral random stream: the phase
entering tick 34 is COOLING, so the claim says both the sample and the
metrics output report deviation 0 on that tick; the telemetry sample indeed
records 0, but the exposed metrics deviation state is strictly negative —
it still holds the deviation computed during the last PRESSING tick. -/
theorem deviation_reset_counterexample :
    (trace 33).machineState = Phase.COOLING ∧
      (tick (trace 33) noiseZero).sample.tempDeviation = 0 ∧
      (tick (trace 33) noiseZero).state.tempDeviation < 0 := by
  have h33 : (trace 33).machineState = Phase.COOLING := by
    rw [(trace_fsm 33).1]
    decide
  have h32 : (trace 32).machineState = Phase.PRESSING := by
    rw [(trace_fsm 32).1]
    decide
  have hcond : ¬((trace 33).machineState = Phase.HEATING ∨
      (trace 33).machineState = Phase.PRESSING) := by
    rw [h33]
    rintro (h | h) <;> exact Phase.noConfusion h
  refine ⟨h33, ?_, ?_⟩
  · rw [tick_sample_tempDeviation]
    unfold tempDeviationOf
    rw [if_neg hcond, round1_zero]
  · rw [tick_state_tempDeviation, if_neg hcond]
    have ht : trace 33 = (tick (trace 32) noiseZero).state := rfl
    rw [ht, tick_state_tempDeviation, if_pos (Or.inr h32)]
    unfold tempDeviationOf
    rw [if_pos (Or.inr h32)]
    have hlt : (tick (trace 32) noiseZero).state.temp < 165 := trace_temp_lt 33
    unfold TARGET_TEMP
    apply mul_neg_of_neg_of_pos
    · apply div_neg_of_neg_of_pos
      · linarith
      · norm_num
    · norm_num

/-! ### Claim C10 -/

/-- Claim C10: during PRESSING a pressure deviation beyond the tolerance on
the high side never generates an alert: whenever the pressure is at or
above 90 percent of the target, no pressure alert of any severity is
offered and the pressure branch does not increment the reject counter; a
pressure alert is offered exactly when the phase is PRESSING, the deviation
is beyond tolerance AND the pressure is below 90 percent of the target, and
then it is always critical; and the engine tick offers exactly this
decision. -/
theorem pressure_high_no_alert :
    (∀ (p : Phase) (pressure rnd : ℚ), TARGET_PRESSURE * 0.9 ≤ pressure →
        pressureAlert p pressure = none ∧ pressureRejectInc p pressure rnd = 0) ∧
      (∀ (p : Phase) (pressure : ℚ),
        pressureAlert p pressure ≠ none ↔
          p = Phase.PRESSING ∧ |pressureDeviationOf p pressure| > PRESSURE_TOLERANCE ∧
            pressure < TARGET_PRESSURE * 0.9) ∧
      (∀ (p : Phase) (pressure : ℚ),
        pressureAlert p pressure = none ∨
          pressureAlert p pressure = some Severity.critical) ∧
      (∀ (s : EngineState) (n : Noise),
        (tick s n).pressureOffer = pressureAlert s.machineState (tick s n).state.pressure) := by
  have hnone : ∀ (p : Phase) (pressure : ℚ), TARGET_PRESSURE * 0.9 ≤ pressure →
      pressureAlert p pressure = none := by
    intro p pressure h
    unfold pressureAlert
    by_cases hp : p = Phase.PRESSING
    · rw [if_pos hp, if_neg ?_]
      rintro ⟨_, hlt⟩
      linarith
    · rw [if_neg hp]
  refine ⟨?_, ?_, ?_, fun s n => tick_pressureOffer s n⟩
  · intro p pressure rnd h
    refine ⟨hnone p pressure h, ?_⟩
    unfold pressureRejectInc
    rw [hnone p pressure h]
    simp
  · intro p pressure
    by_cases hp : p = Phase.PRESSING
    · subst hp
      unfold pressureAlert
      rw [if_pos rfl]
      by_cases hc : |pressureDeviationOf Phase.PRESSING pressure| > PRESSURE_TOLERANCE ∧
          pressure < TARGET_PRESSURE * 0.9
      · rw [if_pos hc]
        simp [hc]
      · rw [if_neg hc]
        simp [hc]
    · unfold pressureAlert
      rw [if_neg hp]
      simp [hp]
  · intro p pressure
    by_cases hp : p = Phase.PRESSING
    · subst hp
      unfold pressureAlert
      rw [if_pos rfl]
      by_cases hc : |pressureDeviationOf Phase.PRESSING pressure| > PRESSURE_TOLERANCE ∧
          pressure < TARGET_PRESSURE * 0.9
      · rw [if_pos hc]
        right
        rfl
      · rw [if_neg hc]
        left
        rfl
    · unfold pressureAlert
      rw [if_neg hp]
      left
      rfl

/-- Witness for C10: during PRESSING at 200 bar (deviation ≈ +11 percent,
beyond tolerance on the high side, pressure at or above 162 bar) no
pressure alert is offered and the reject counter is untouched. -/
theorem pressure_high_no_alert_witness :
    pressureAlert Phase.PRESSING 200 = none ∧
      pressureRejectInc Phase.PRESSING 200 (1 / 2) = 0 :=
  pressure_high_no_alert.1 Phase.PRESSING 200 (1 / 2) (by norm_num [TARGET_PRESSURE])

end Synapse
